import Mathlib

/-!
Shallow embedding of the projection engine in `src/python_api/app.py` of the
foresight_ai repository: the health heuristic `predict_health_increase`, the
inline temporal projection, the top-k selection over classifier
probabilities, and the orchestrator `predict_future_twin` with its
per-predictor failure isolation.

Modelling conventions:
* Python floats are modelled as `ℚ`; literals such as `7.5` become `15/2`.
  Binary floating-point representation effects are out of scope; no claim
  below depends on them.
* Python `round(x, d)` performs banker's rounding (half to even) on the
  scaled value, modelled by `roundHalfEven`.  No claim exercises a tie.
* The two trained joblib pipelines are opaque oracles passed as arguments.
  Loading an artifact and calling `.predict` / `.predict_proba` is one
  oracle call returning `Except`: an `.error` models any exception raised
  inside the corresponding `try` block after column selection succeeded
  (missing artifact file, schema mismatch, predictor fault).
* `np.argsort` with numpy's default sort runs insertion sort on arrays of
  fewer than 16 elements, a stable ascending sort; it is modelled by
  `List.insertionSort` on the index list, which is stable as well.  The
  code then reverses the ascending order (`[::-1]`) and takes 3.
* The Python dict `user_input_data` is a record of `Option` fields;
  `d['k']` on a missing key raises `KeyError`, modelled by `Except Err`.
  `pandas` column selection `twin_df[[...]]` raises `KeyError` when a
  column is absent; it is modelled by `selectFeatures` returning `none`,
  which each `try` block converts to its fallback sentinel.
-/

namespace Foresight

/-- Health heuristic of `app.py` (`predict_health_increase`, lines 21-42):
optimal band [7, 8.5] gives the maximal 10% increase; below the band the
increase shrinks by 5 points per hour of deficit, above by 2 points per
hour of excess, both floored at 0. -/
def predict_health_increase (avg_sleep_hours : ℚ) : ℚ :=
  let base_factor : ℚ := 1
  let optimal_sleep_min : ℚ := 7
  let optimal_sleep_max : ℚ := 17 / 2
  let max_increase_percent : ℚ := 10
  let increase : ℚ :=
    if optimal_sleep_min ≤ avg_sleep_hours ∧ avg_sleep_hours ≤ optimal_sleep_max then
      max_increase_percent
    else if avg_sleep_hours < optimal_sleep_min then
      max 0 (max_increase_percent - (optimal_sleep_min - avg_sleep_hours) * 5)
    else
      max 0 (max_increase_percent - (avg_sleep_hours - optimal_sleep_max) * 2)
  base_factor + increase / 100

/-- Temporal projection of `app.py` lines 50-53: Python `//` is floor
division, hence `Int.fdiv`. -/
def projectTime (age tenure_months horizon_months : ℤ) : ℤ × ℤ :=
  (age + Int.fdiv horizon_months 12, tenure_months + horizon_months)

/-- Python `round` to an integer: nearest, ties to even. -/
def roundHalfEven (q : ℚ) : ℤ :=
  if q - ⌊q⌋ = 1 / 2 then (if Even ⌊q⌋ then ⌊q⌋ else ⌊q⌋ + 1) else round q

/-- Python `round(q, d)`. -/
def roundDec (d : ℕ) (q : ℚ) : ℚ :=
  (roundHalfEven (q * 10 ^ d) : ℚ) / 10 ^ d

/-- The `user_input_data` dict (and the derived `twin_df` row): a record of
optional fields, `none` meaning the key is absent.  Fields are typed by the
UserProfile data model. -/
structure Profile where
  age : Option ℤ
  tenure_months : Option ℤ
  education : Option String
  location : Option String
  title : Option String
  industry : Option String
  remote_flag : Option Bool
  avg_sleep_hours : Option ℚ
  deriving DecidableEq

/-- The fully populated feature row both pipelines are scored on:
`twin_df[['education','location','title','industry','age','tenure_months','remote_flag']]`. -/
structure FeatureRow where
  education : String
  location : String
  title : String
  industry : String
  age : ℤ
  tenure_months : ℤ
  remote_flag : Bool
  deriving DecidableEq

/-- pandas column selection: succeeds only when every required column is
present, otherwise raises `KeyError` (here: `none`) inside the `try`. -/
def selectFeatures (t : Profile) : Option FeatureRow :=
  match t.education, t.location, t.title, t.industry, t.age, t.tenure_months, t.remote_flag with
  | some e, some l, some ti, some ind, some a, some ten, some r =>
    some { education := e, location := l, title := ti, industry := ind,
           age := a, tenure_months := ten, remote_flag := r }
  | _, _, _, _, _, _, _ => none

/-- `probas[i]` (all indices used by the code are in range). -/
def probAt (probas : List ℚ) (i : ℕ) : ℚ := probas.getD i 0

/-- `np.argsort(probas)`: stable ascending sort of the index range by
probability. -/
def argsortAsc (probas : List ℚ) : List ℕ :=
  List.insertionSort (fun i j => probAt probas i ≤ probAt probas j)
    (List.range probas.length)

/-- `np.argsort(probas)[::-1][:k]`. -/
def topIndices (probas : List ℚ) (k : ℕ) : List ℕ :=
  ((argsortAsc probas).reverse).take k

/-- `[classes[i] for i in top_indices]`: `none` models the `IndexError`
raised when some index is out of range of `labels`. -/
def getLabels (labels : List String) : List ℕ → Option (List String)
  | [] => some []
  | i :: rest =>
    match labels[i]?, getLabels labels rest with
    | some s, some l => some (s :: l)
    | _, _ => none

/-- Top-k selection (app.py lines 101-102): argsort descending via
reversal, take `k`, read the labels. -/
def topK (labels : List String) (probas : List ℚ) (k : ℕ) : Option (List String) :=
  getLabels labels (topIndices probas k)

/-- `predicted_salary` in the final package: either the rounded scalar or
the "N/A" sentinel string. -/
inductive SalaryOut where
  | num (v : ℚ)
  | na
  deriving DecidableEq

/-- The final results package returned by `predict_future_twin`. -/
structure ProjectionResult where
  projected_age : ℤ
  health_increase_percent : ℚ
  predicted_salary : SalaryOut
  recommended_jobs : List String
  time_projection_months : ℤ
  deriving DecidableEq

/-- Exceptions escaping `predict_future_twin`: dict access on a missing
key. -/
inductive Err where
  | keyError (key : String)
  deriving DecidableEq

/-- Salary pipeline oracle: `joblib.load` + `pipeline.predict(...)[0]` as
one opaque call; `.error` is any exception it raises. -/
abbrev SalaryOracle := FeatureRow → Except String ℚ

/-- Job pipeline oracle: `joblib.load` + `predict_proba(...)[0]` and
`classes_`, the label list aligned with the probability vector. -/
abbrev JobOracle := FeatureRow → Except String (List String × List ℚ)

/-- `twin_df = pd.DataFrame([{**user_input_data, 'age': projected_age,
'tenure_months': projected_tenure}])`: record merge overwriting the two
numeric fields. -/
def assemble_twin_df (user_input_data : Profile) (projected_age projected_tenure : ℤ) : Profile :=
  { user_input_data with age := some projected_age, tenure_months := some projected_tenure }

/-- The salary `try` block: column selection, then the oracle; any failure
yields the internal sentinel -1.0. -/
def salary_branch (salary_pipeline : SalaryOracle) (twin_df : Profile) : ℚ :=
  match selectFeatures twin_df with
  | none => -1
  | some row =>
    match salary_pipeline row with
    | .error _ => -1
    | .ok v => v

/-- The job `try` block: column selection, the oracle, then top-3
selection; any failure yields `["N/A"]`. -/
def job_branch (job_pipeline : JobOracle) (twin_df : Profile) : List String :=
  match selectFeatures twin_df with
  | none => ["N/A"]
  | some row =>
    match job_pipeline row with
    | .error _ => ["N/A"]
    | .ok co =>
      match topK co.1 co.2 3 with
      | none => ["N/A"]
      | some jobs => jobs

/-- The orchestrator `predict_future_twin` (app.py lines 45-116).  The two
dict accesses `user_input_data['age']` and `user_input_data['tenure_months']`
sit outside every `try` block, so a missing key raises `KeyError` out of
the function; everything afterwards is total.  The final package surfaces
the internal salary value: `round(float(s), 2) if isinstance(s, (float,
np.float64)) and s != -1.0 else "N/A"`. -/
def predict_future_twin (salary_pipeline : SalaryOracle) (job_pipeline : JobOracle)
    (user_input_data : Profile) (projection_months : ℤ) : Except Err ProjectionResult :=
  match user_input_data.age with
  | none => .error (.keyError "age")
  | some age =>
    match user_input_data.tenure_months with
    | none => .error (.keyError "tenure_months")
    | some tenure_months =>
      let pa := projectTime age tenure_months projection_months
      let projected_age := pa.1
      let projected_tenure := pa.2
      let sleep_factor := predict_health_increase (user_input_data.avg_sleep_hours.getD (15 / 2))
      let health_percent_increase := (sleep_factor - 1) * 100
      let twin_df := assemble_twin_df user_input_data projected_age projected_tenure
      let predicted_salary := salary_branch salary_pipeline twin_df
      let recommended_jobs := job_branch job_pipeline twin_df
      .ok { projected_age := projected_age
            health_increase_percent := roundDec 1 health_percent_increase
            predicted_salary :=
              if predicted_salary = -1 then .na else .num (roundDec 2 predicted_salary)
            recommended_jobs := recommended_jobs
            time_projection_months := projection_months }

/-- A fully populated test profile. -/
def pFull : Profile :=
  { age := some 30, tenure_months := some 10, education := some "Masters",
    location := some "NY", title := some "Engineer", industry := some "Tech",
    remote_flag := some true, avg_sleep_hours := some 8 }

/-- `pFull` with the `industry` key absent. -/
def pNoIndustry : Profile := { pFull with industry := none }

example : argsortAsc [0.1, 0.4, 0.4, 0.1] = [0, 3, 1, 2] := by
  norm_num [argsortAsc, probAt, List.insertionSort, List.orderedInsert, List.range_succ]

example : topK ["A", "B", "C", "D"] [0.1, 0.4, 0.4, 0.1] 3 = some ["C", "B", "D"] := by
  norm_num [topK, topIndices, argsortAsc, probAt, getLabels,
    List.insertionSort, List.orderedInsert, List.range_succ]

/-! ### Helper lemmas -/

/-- `roundHalfEven` is the identity on integers. -/
theorem roundHalfEven_intCast (z : ℤ) : roundHalfEven (z : ℚ) = z := by
  simp [roundHalfEven, round_intCast]

/-- Evaluating `roundDec` when the scaled value is an integer. -/
theorem roundDec_eq_of_int (d : ℕ) (q : ℚ) (z : ℤ) (h : q * 10 ^ d = (z : ℚ)) :
    roundDec d q = (z : ℚ) / 10 ^ d := by
  rw [roundDec, h, roundHalfEven_intCast]

/-- Reduction of the orchestrator once both temporal keys are present. -/
theorem predict_future_twin_ok (sp : SalaryOracle) (jp : JobOracle) (p : Profile)
    (m age tenure : ℤ) (hage : p.age = some age) (hten : p.tenure_months = some tenure) :
    predict_future_twin sp jp p m =
      .ok { projected_age := age + Int.fdiv m 12
            health_increase_percent :=
              roundDec 1 ((predict_health_increase (p.avg_sleep_hours.getD (15 / 2)) - 1) * 100)
            predicted_salary :=
              if salary_branch sp (assemble_twin_df p (age + Int.fdiv m 12) (tenure + m)) = -1
              then .na
              else .num (roundDec 2
                (salary_branch sp (assemble_twin_df p (age + Int.fdiv m 12) (tenure + m))))
            recommended_jobs :=
              job_branch jp (assemble_twin_df p (age + Int.fdiv m 12) (tenure + m))
            time_projection_months := m } := by
  simp [predict_future_twin, hage, hten, projectTime]

/-- Column selection on the merged row succeeds exactly on the recorded
fields when every categorical/boolean field is present. -/
theorem selectFeatures_assemble (p : Profile) (a t : ℤ) (e l ti ind : String) (r : Bool)
    (he : p.education = some e) (hl : p.location = some l) (hti : p.title = some ti)
    (hind : p.industry = some ind) (hr : p.remote_flag = some r) :
    selectFeatures (assemble_twin_df p a t) =
      some { education := e, location := l, title := ti, industry := ind,
             age := a, tenure_months := t, remote_flag := r } := by
  simp [selectFeatures, assemble_twin_df, he, hl, hti, hind, hr]

/-- Column selection on the merged row fails when `industry` is absent. -/
theorem selectFeatures_assemble_no_industry (p : Profile) (a t : ℤ)
    (hind : p.industry = none) :
    selectFeatures (assemble_twin_df p a t) = none := by
  obtain ⟨pa, pt, pe, pl, pti, pind, pr, ps⟩ := p
  simp only at hind
  subst hind
  cases pe <;> cases pl <;> cases pti <;> cases pr <;> rfl

/-! ### Claim theorems -/

/-- C4: the health heuristic returns exactly 1.10 on the closed band
[7, 8.5], `1 + max 0 (10 - 5*(7-s))/100` below it and
`1 + max 0 (10 - 2*(s-8.5))/100` above it. -/
theorem health_factor_piecewise (s : ℚ) :
    (7 ≤ s ∧ s ≤ 17 / 2 → predict_health_increase s = 11 / 10) ∧
    (s < 7 → predict_health_increase s = 1 + max 0 (10 - 5 * (7 - s)) / 100) ∧
    (17 / 2 < s → predict_health_increase s = 1 + max 0 (10 - 2 * (s - 17 / 2)) / 100) := by
  refine ⟨fun h => ?_, fun h => ?_, fun h => ?_⟩ <;> simp only [predict_health_increase]
  · rw [if_pos h]; norm_num
  · rw [if_neg (by rintro ⟨h1, h2⟩; linarith), if_pos h,
      show (7 - s) * 5 = 5 * (7 - s) from mul_comm _ _]
  · rw [if_neg (by rintro ⟨h1, h2⟩; linarith), if_neg (by linarith),
      show (s - 17 / 2) * 2 = 2 * (s - 17 / 2) from mul_comm _ _]

/-- C4 witness: one concrete point in each of the three regimes. -/
theorem health_factor_piecewise_witness :
    predict_health_increase (15 / 2) = 11 / 10 ∧
    predict_health_increase 6 = 1 + max 0 (10 - 5 * (7 - 6)) / 100 ∧
    predict_health_increase 10 = 1 + max 0 (10 - 2 * (10 - 17 / 2)) / 100 :=
  ⟨(health_factor_piecewise (15 / 2)).1 (by norm_num),
   (health_factor_piecewise 6).2.1 (by norm_num),
   (health_factor_piecewise 10).2.2 (by norm_num)⟩

/-- C5: the health factor never falls below 1, is non-decreasing below the
band and non-increasing above it. -/
theorem health_factor_monotone (s t : ℚ) :
    1 ≤ predict_health_increase s ∧
    (s ≤ t → t < 7 → predict_health_increase s ≤ predict_health_increase t) ∧
    (17 / 2 < s → s ≤ t → predict_health_increase t ≤ predict_health_increase s) := by
  refine ⟨?_, fun hst ht7 => ?_, fun hs hst => ?_⟩
  · simp only [predict_health_increase]
    split_ifs with h1 h2
    · norm_num
    · have h0 : (0 : ℚ) ≤ max 0 (10 - (7 - s) * 5) := le_max_left _ _
      linarith
    · have h0 : (0 : ℚ) ≤ max 0 (10 - (s - 17 / 2) * 2) := le_max_left _ _
      linarith
  · have hs7 : s < 7 := lt_of_le_of_lt hst ht7
    rw [((health_factor_piecewise s).2.1 hs7), ((health_factor_piecewise t).2.1 ht7)]
    have hmax : max 0 (10 - 5 * (7 - s)) ≤ max 0 (10 - 5 * (7 - t)) :=
      max_le_max le_rfl (by linarith)
    linarith
  · have ht : 17 / 2 < t := lt_of_lt_of_le hs hst
    rw [((health_factor_piecewise s).2.2 hs), ((health_factor_piecewise t).2.2 ht)]
    have hmax : max 0 (10 - 2 * (t - 17 / 2)) ≤ max 0 (10 - 2 * (s - 17 / 2)) :=
      max_le_max le_rfl (by linarith)
    linarith

/-- C5 witness: concrete instances of the three conjuncts. -/
theorem health_factor_monotone_witness :
    1 ≤ predict_health_increase 5 ∧
    predict_health_increase 5 ≤ predict_health_increase 6 ∧
    predict_health_increase 10 ≤ predict_health_increase 9 :=
  ⟨(health_factor_monotone 5 5).1,
   (health_factor_monotone 5 6).2.1 (by norm_num) (by norm_num),
   (health_factor_monotone 9 10).2.2 (by norm_num) (by norm_num)⟩

/-- C6: the temporal projection adds `floor(horizon/12)` years to the age
and the full horizon to the tenure; the two spec examples hold. -/
theorem projectTime_spec (age tenure_months horizon_months : ℤ) :
    projectTime age tenure_months horizon_months =
      (age + ⌊(horizon_months : ℚ) / 12⌋, tenure_months + horizon_months) ∧
    projectTime 30 0 6 = (30, 6) ∧
    projectTime 30 10 24 = (32, 34) := by
  refine ⟨?_, by decide, by decide⟩
  simp only [projectTime, Prod.mk.injEq]
  refine ⟨?_, trivial⟩
  congr 1
  rw [Int.fdiv_eq_ediv _ (by norm_num)]
  rw [show ((12 : ℚ) = ((12 : ℕ) : ℚ)) by norm_num, Rat.floor_intCast_div_natCast]
  rfl

/-- C8: the orchestrator is a pure function of the profile, the horizon and
the two predictor artifacts: identical inputs give identical results. -/
theorem predict_future_twin_deterministic (sp sp2 : SalaryOracle) (jp jp2 : JobOracle)
    (p p2 : Profile) (m m2 : ℤ)
    (hsp : sp = sp2) (hjp : jp = jp2) (hp : p = p2) (hm : m = m2) :
    predict_future_twin sp jp p m = predict_future_twin sp2 jp2 p2 m2 := by
  subst hsp; subst hjp; subst hp; subst hm; rfl

/-- C8 witness. -/
theorem predict_future_twin_deterministic_witness :
    predict_future_twin (fun _ => .ok 123456) (fun _ => .ok (["A"], [1])) pFull 6 =
      predict_future_twin (fun _ => .ok 123456) (fun _ => .ok (["A"], [1])) pFull 6 :=
  predict_future_twin_deterministic _ _ _ _ _ _ _ _ rfl rfl rfl rfl

/-- C10: a missing `age` or `tenure_months` key raises `KeyError` for every
choice of predictor artifacts, so no `ProjectionResult` at all is produced
(unlike missing categorical fields, whose `KeyError` is caught inside the
per-predictor handlers). -/
theorem missing_temporal_key_aborts (sp : SalaryOracle) (jp : JobOracle)
    (p : Profile) (m : ℤ) :
    (p.age = none → predict_future_twin sp jp p m = .error (.keyError "age")) ∧
    (∀ a, p.age = some a → p.tenure_months = none →
      predict_future_twin sp jp p m = .error (.keyError "tenure_months")) := by
  constructor
  · intro h
    simp [predict_future_twin, h]
  · intro a ha ht
    simp [predict_future_twin, ha, ht]

/-- Probability-ascending order with ties broken by smaller original
index: the order in which the stable ascending argsort emits indices. -/
def ltLex (ps : List ℚ) (i j : ℕ) : Prop :=
  probAt ps i < probAt ps j ∨ (probAt ps i = probAt ps j ∧ i < j)

/-- Inserting an index smaller than all present ones into a lex-sorted
index list keeps it lex-sorted (stability of the insertion). -/
theorem orderedInsert_ltLex (ps : List ℚ) (a : ℕ) :
    ∀ l : List ℕ, (∀ b ∈ l, a < b) → l.Pairwise (ltLex ps) →
      (List.orderedInsert (fun i j => probAt ps i ≤ probAt ps j) a l).Pairwise (ltLex ps)
  | [], _, _ => by simp [List.orderedInsert]
  | b :: t, ha, hl => by
    simp only [List.orderedInsert]
    split_ifs with hab
    · refine List.pairwise_cons.mpr ⟨?_, hl⟩
      intro c hc
      rcases List.mem_cons.mp hc with rfl | hct
      · rcases lt_or_eq_of_le hab with h | h
        · exact Or.inl h
        · exact Or.inr ⟨h, ha _ (List.mem_cons_self _ _)⟩
      · rcases (List.pairwise_cons.mp hl).1 c hct with h | ⟨h, _⟩
        · exact Or.inl (lt_of_le_of_lt hab h)
        · rcases lt_or_eq_of_le hab with h2 | h2
          · exact Or.inl (h ▸ h2)
          · exact Or.inr ⟨h2.trans h, ha _ (List.mem_cons_of_mem _ hct)⟩
    · push_neg at hab
      refine List.pairwise_cons.mpr ⟨?_, orderedInsert_ltLex ps a t
        (fun x hx => ha x (List.mem_cons_of_mem _ hx)) (List.pairwise_cons.mp hl).2⟩
      intro c hc
      rcases (List.mem_orderedInsert _).mp hc with rfl | hct
      · exact Or.inl hab
      · exact (List.pairwise_cons.mp hl).1 c hct

/-- The stable ascending argsort of a strictly increasing index list is
sorted by probability with ties in ascending index order. -/
theorem insertionSort_ltLex (ps : List ℚ) :
    ∀ l : List ℕ, l.Pairwise (· < ·) →
      (List.insertionSort (fun i j => probAt ps i ≤ probAt ps j) l).Pairwise (ltLex ps)
  | [], _ => by simp [List.insertionSort]
  | a :: l, h => by
    rw [List.insertionSort]
    exact orderedInsert_ltLex ps a _
      (fun b hb => (List.pairwise_cons.mp h).1 b ((List.mem_insertionSort _).mp hb))
      (insertionSort_ltLex ps l (List.pairwise_cons.mp h).2)

theorem argsortAsc_pairwise (ps : List ℚ) : (argsortAsc ps).Pairwise (ltLex ps) :=
  insertionSort_ltLex ps _ (List.pairwise_lt_range _)

theorem argsortAsc_perm (ps : List ℚ) : (argsortAsc ps).Perm (List.range ps.length) :=
  List.perm_insertionSort _ _

/-- The emitted index order of `np.argsort(probas)[::-1][:k]`. -/
theorem topIndices_pairwise (ps : List ℚ) (k : ℕ) :
    (topIndices ps k).Pairwise (fun i j => ltLex ps j i) :=
  List.Pairwise.sublist (List.take_sublist _ _)
    (List.pairwise_reverse.mpr (argsortAsc_pairwise ps))

/-- `getLabels` succeeds when every index is in range. -/
theorem getLabels_eq_map (labels : List String) :
    ∀ l : List ℕ, (∀ i ∈ l, i < labels.length) →
      getLabels labels l = some (l.map fun i => labels.getD i "")
  | [], _ => rfl
  | i :: rest, h => by
    have hi : i < labels.length := h i (List.mem_cons_self _ _)
    have hrest := getLabels_eq_map labels rest (fun j hj => h j (List.mem_cons_of_mem _ hj))
    simp [getLabels, hrest, List.getElem?_eq_getElem hi, List.getD_eq_getElem?_getD]

theorem map_getD_range (labels : List String) :
    (List.range labels.length).map (fun i => labels.getD i "") = labels := by
  apply List.ext_getElem
  · simp
  · intro i h1 h2
    simp [List.getD_eq_getElem?_getD, List.getElem?_eq_getElem h2]

/-- C3 counterexample: the code reverses a stable ascending argsort, so the
tie at probability 0.4 resolves to index order [2, 1] and the tie at 0.1
keeps index 3 ahead of index 0: the result is ["C", "B", "D"], not the
claimed ["B", "C", "A"]. -/
theorem topK_counterexample :
    topK ["A", "B", "C", "D"] [0.1, 0.4, 0.4, 0.1] 3 = some ["C", "B", "D"] ∧
    ¬ topK ["A", "B", "C", "D"] [0.1, 0.4, 0.4, 0.1] 3 = some ["B", "C", "A"] := by
  have h : topK ["A", "B", "C", "D"] [0.1, 0.4, 0.4, 0.1] 3 = some ["C", "B", "D"] := by
    norm_num [topK, topIndices, argsortAsc, probAt, getLabels,
      List.insertionSort, List.orderedInsert, List.range_succ]
  refine ⟨h, ?_⟩
  rw [h]
  decide

/-- C3 amended: top-k sorts indices by probability descending with ties
broken by DESCENDING original index (the reversal of a stable ascending
argsort); the example returns ["C", "B", "D"]; when fewer than k labels
exist all of them are returned. -/
theorem topK_spec (labels : List String) (probas : List ℚ) (k : ℕ) :
    (topIndices probas k).Pairwise (fun i j =>
      probAt probas j < probAt probas i ∨ (probAt probas j = probAt probas i ∧ j < i)) ∧
    topK ["A", "B", "C", "D"] [0.1, 0.4, 0.4, 0.1] 3 = some ["C", "B", "D"] ∧
    (labels.length = probas.length → probas.length ≤ k →
      ∃ chosen, topK labels probas k = some chosen ∧ chosen.Perm labels) := by
  refine ⟨topIndices_pairwise probas k, ?_, ?_⟩
  · norm_num [topK, topIndices, argsortAsc, probAt, getLabels,
      List.insertionSort, List.orderedInsert, List.range_succ]
  · intro hlen hk
    have hperm := argsortAsc_perm probas
    have htop : topIndices probas k = (argsortAsc probas).reverse := by
      rw [topIndices, List.take_of_length_le]
      rw [List.length_reverse, hperm.length_eq, List.length_range]
      exact hk
    have hmem : ∀ i ∈ topIndices probas k, i < labels.length := by
      intro i hi
      rw [htop, List.mem_reverse] at hi
      have h2 := List.mem_range.mp (hperm.mem_iff.mp hi)
      omega
    refine ⟨_, getLabels_eq_map labels _ hmem, ?_⟩
    have h1 : (topIndices probas k).Perm (List.range labels.length) := by
      rw [htop, hlen]
      exact (List.reverse_perm _).trans hperm
    have h2 := h1.map (fun i => labels.getD i "")
    rwa [map_getD_range] at h2

/-- C3 amended witness: two labels with k = 3 returns both. -/
theorem topK_spec_witness :
    ∃ chosen, topK ["A", "B"] [0.3, 0.7] 3 = some chosen ∧ chosen.Perm ["A", "B"] :=
  (topK_spec ["A", "B"] [0.3, 0.7] 3).2.2 rfl (by norm_num)

/-- C1 counterexample: a profile missing only `industry` does NOT abort:
both per-predictor handlers catch the pandas `KeyError`, and a structurally
complete result full of sentinel values is returned. -/
theorem missing_industry_counterexample :
    predict_future_twin (fun _ => .ok 123456) (fun _ => .ok (["A"], [1])) pNoIndustry 6 =
      .ok { projected_age := 30, health_increase_percent := 10, predicted_salary := .na,
            recommended_jobs := ["N/A"], time_projection_months := 6 } := by
  have hhp : roundDec 1
      ((predict_health_increase (pNoIndustry.avg_sleep_hours.getD (15 / 2)) - 1) * 100) = 10 := by
    rw [show pNoIndustry.avg_sleep_hours.getD (15 / 2) = (8 : ℚ) from rfl]
    have hfac : predict_health_increase ((8 : ℚ)) = 11 / 10 := by
      norm_num [predict_health_increase]
    rw [hfac, roundDec_eq_of_int 1 _ 100 (by norm_num)]
    norm_num
  have hs : salary_branch (fun _ => .ok 123456)
      (assemble_twin_df pNoIndustry (30 + Int.fdiv 6 12) (10 + 6)) = -1 := rfl
  have hj : job_branch (fun _ => .ok (["A"], [1]))
      (assemble_twin_df pNoIndustry (30 + Int.fdiv 6 12) (10 + 6)) = ["N/A"] := rfl
  rw [predict_future_twin_ok _ _ _ _ 30 10 rfl rfl, hs, hj, if_pos rfl, hhp]
  rfl

/-- C1 amended: a profile with `age` and `tenure_months` present but a
missing categorical field (`industry`) still yields a complete
`ProjectionResult`; both predictor fields degrade to their sentinels, and
the health/time fields are computed normally.  Only missing `age` or
`tenure_months` aborts the request. -/
theorem missing_categorical_sentinels (sp : SalaryOracle) (jp : JobOracle)
    (p : Profile) (m age tenure : ℤ)
    (hage : p.age = some age) (hten : p.tenure_months = some tenure)
    (hind : p.industry = none) :
    predict_future_twin sp jp p m =
      .ok { projected_age := age + Int.fdiv m 12
            health_increase_percent :=
              roundDec 1 ((predict_health_increase (p.avg_sleep_hours.getD (15 / 2)) - 1) * 100)
            predicted_salary := .na
            recommended_jobs := ["N/A"]
            time_projection_months := m } := by
  rw [predict_future_twin_ok sp jp p m age tenure hage hten]
  rw [salary_branch, job_branch, selectFeatures_assemble_no_industry p _ _ hind]
  norm_num

/-- C1 amended witness. -/
theorem missing_categorical_sentinels_witness :
    predict_future_twin (fun _ => .ok 123456) (fun _ => .ok (["A"], [1])) pNoIndustry 6 =
      .ok { projected_age := 30 + Int.fdiv 6 12
            health_increase_percent :=
              roundDec 1
                ((predict_health_increase (pNoIndustry.avg_sleep_hours.getD (15 / 2)) - 1) * 100)
            predicted_salary := .na
            recommended_jobs := ["N/A"]
            time_projection_months := 6 } :=
  missing_categorical_sentinels _ _ pNoIndustry 6 30 10 rfl rfl rfl

/-- C2: failure isolation.  If exactly one predictor raises on a
well-formed feature row, the orchestrator still returns a structurally
complete result: the failing side degrades to its sentinel while the other
side and the health/time fields are populated exactly as on the all-success
path. -/
theorem failure_isolation (sp : SalaryOracle) (jp : JobOracle) (p : Profile)
    (m age tenure : ℤ) (row : FeatureRow)
    (hage : p.age = some age) (hten : p.tenure_months = some tenure)
    (hrow : selectFeatures (assemble_twin_df p (age + Int.fdiv m 12) (tenure + m)) = some row) :
    (∀ e classes probas chosen, sp row = .error e → jp row = .ok (classes, probas) →
      topK classes probas 3 = some chosen →
      predict_future_twin sp jp p m =
        .ok { projected_age := age + Int.fdiv m 12
              health_increase_percent :=
                roundDec 1
                  ((predict_health_increase (p.avg_sleep_hours.getD (15 / 2)) - 1) * 100)
              predicted_salary := .na
              recommended_jobs := chosen
              time_projection_months := m }) ∧
    (∀ e v, jp row = .error e → sp row = .ok v →
      predict_future_twin sp jp p m =
        .ok { projected_age := age + Int.fdiv m 12
              health_increase_percent :=
                roundDec 1
                  ((predict_health_increase (p.avg_sleep_hours.getD (15 / 2)) - 1) * 100)
              predicted_salary := if v = -1 then .na else .num (roundDec 2 v)
              recommended_jobs := ["N/A"]
              time_projection_months := m }) := by
  constructor
  · intro e classes probas chosen hse hjo htop
    rw [predict_future_twin_ok sp jp p m age tenure hage hten]
    simp [salary_branch, job_branch, hrow, hse, hjo, htop]
  · intro e v hje hsv
    rw [predict_future_twin_ok sp jp p m age tenure hage hten]
    simp [salary_branch, job_branch, hrow, hje, hsv]

/-- C2 witness: salary predictor raising, job predictor succeeding. -/
theorem failure_isolation_witness :
    predict_future_twin (fun _ => .error "boom")
        (fun _ => .ok (["A", "B", "C", "D"], [0.1, 0.4, 0.4, 0.1])) pFull 6 =
      .ok { projected_age := 30 + Int.fdiv 6 12
            health_increase_percent :=
              roundDec 1
                ((predict_health_increase (pFull.avg_sleep_hours.getD (15 / 2)) - 1) * 100)
            predicted_salary := .na
            recommended_jobs := ["C", "B", "D"]
            time_projection_months := 6 } :=
  (failure_isolation _ _ pFull 6 30 10 _ rfl rfl rfl).1 "boom" _ _ _ rfl rfl
    (by norm_num [topK, topIndices, argsortAsc, probAt, getLabels,
      List.insertionSort, List.orderedInsert, List.range_succ])

/-- C7 counterexample: the salary predictor succeeds with exactly -1.0, yet
the result carries the "N/A" sentinel instead of round(-1.0, 2). -/
theorem result_assembly_counterexample :
    predict_future_twin (fun _ => .ok (-1)) (fun _ => .ok (["A"], [1])) pFull 6 =
      .ok { projected_age := 30, health_increase_percent := 10,
            predicted_salary := .na, recommended_jobs := ["A"],
            time_projection_months := 6 } ∧
    SalaryOut.na ≠ SalaryOut.num (roundDec 2 (-1)) := by
  constructor
  · have hhp : roundDec 1
        ((predict_health_increase (pFull.avg_sleep_hours.getD (15 / 2)) - 1) * 100) = 10 := by
      rw [show pFull.avg_sleep_hours.getD (15 / 2) = (8 : ℚ) from rfl]
      have hfac : predict_health_increase ((8 : ℚ)) = 11 / 10 := by
        norm_num [predict_health_increase]
      rw [hfac, roundDec_eq_of_int 1 _ 100 (by norm_num)]
      norm_num
    have hs : salary_branch (fun _ => .ok (-1))
        (assemble_twin_df pFull (30 + Int.fdiv 6 12) (10 + 6)) = -1 := rfl
    have hj : job_branch (fun _ => .ok (["A"], [1]))
        (assemble_twin_df pFull (30 + Int.fdiv 6 12) (10 + 6)) = ["A"] := rfl
    rw [predict_future_twin_ok _ _ _ _ 30 10 rfl rfl, hs, hj, if_pos rfl, hhp]
    rfl
  · intro h
    exact SalaryOut.noConfusion h

/-- C7 amended: for a valid profile the result always carries the
projected age, the rounded health increase (default sleep 7.5) and the
echoed horizon; `predicted_salary` is the 2-decimal-rounded scalar on
success PROVIDED the scalar is not exactly -1.0 (a successful -1.0 is
surfaced as the sentinel, like a failure); `recommended_jobs` is the top-3
label list on success and `["N/A"]` on failure. -/
theorem result_assembly (sp : SalaryOracle) (jp : JobOracle) (p : Profile)
    (m age tenure : ℤ) (row : FeatureRow)
    (hage : p.age = some age) (hten : p.tenure_months = some tenure)
    (hrow : selectFeatures (assemble_twin_df p (age + Int.fdiv m 12) (tenure + m)) = some row) :
    ∃ r, predict_future_twin sp jp p m = .ok r ∧
      r.projected_age = age + Int.fdiv m 12 ∧
      r.health_increase_percent =
        roundDec 1 ((predict_health_increase (p.avg_sleep_hours.getD (15 / 2)) - 1) * 100) ∧
      r.time_projection_months = m ∧
      (∀ v, sp row = .ok v → v ≠ -1 → r.predicted_salary = .num (roundDec 2 v)) ∧
      (∀ v, sp row = .ok v → v = -1 → r.predicted_salary = .na) ∧
      (∀ e, sp row = .error e → r.predicted_salary = .na) ∧
      (∀ classes probas chosen, jp row = .ok (classes, probas) →
        topK classes probas 3 = some chosen → r.recommended_jobs = chosen) ∧
      (∀ e, jp row = .error e → r.recommended_jobs = ["N/A"]) := by
  refine ⟨_, predict_future_twin_ok sp jp p m age tenure hage hten,
    rfl, rfl, rfl, ?_, ?_, ?_, ?_, ?_⟩
  · intro v hv hne
    simp [salary_branch, hrow, hv, hne]
  · intro v hv he
    subst he
    simp [salary_branch, hrow, hv]
  · intro e he
    simp [salary_branch, hrow, he]
  · intro classes probas chosen hj ht
    simp [job_branch, hrow, hj, ht]
  · intro e he
    simp [job_branch, hrow, he]

/-- C7 amended witness: all-success run with a non-sentinel salary. -/
theorem result_assembly_witness :
    ∃ r, predict_future_twin (fun _ => .ok 123456) (fun _ => .ok (["A"], [1])) pFull 6 =
        .ok r ∧
      r.predicted_salary = .num (roundDec 2 123456) ∧
      r.recommended_jobs = ["A"] ∧
      r.time_projection_months = 6 := by
  obtain ⟨r, h1, h2, h3, h4, h5, h6, h7, h8, h9⟩ :=
    result_assembly (fun _ => .ok 123456) (fun _ => .ok (["A"], [1])) pFull 6 30 10 _ rfl rfl rfl
  exact ⟨r, h1, h5 123456 rfl (by norm_num), h8 ["A"] [1] ["A"] rfl rfl, h4⟩

/-- C9: a successful salary prediction of exactly -1.0 collides with the
internal failure sentinel and is surfaced as "N/A", not as a number. -/
theorem salary_sentinel_collision (sp : SalaryOracle) (jp : JobOracle) (p : Profile)
    (m age tenure : ℤ) (row : FeatureRow)
    (hage : p.age = some age) (hten : p.tenure_months = some tenure)
    (hrow : selectFeatures (assemble_twin_df p (age + Int.fdiv m 12) (tenure + m)) = some row)
    (hsal : sp row = .ok (-1)) :
    ∃ r, predict_future_twin sp jp p m = .ok r ∧ r.predicted_salary = .na := by
  refine ⟨_, predict_future_twin_ok sp jp p m age tenure hage hten, ?_⟩
  simp [salary_branch, hrow, hsal]

/-- C9 witness. -/
theorem salary_sentinel_collision_witness :
    ∃ r, predict_future_twin (fun _ => .ok (-1)) (fun _ => .ok (["A"], [1])) pFull 6 =
        .ok r ∧ r.predicted_salary = .na :=
  salary_sentinel_collision (fun _ => .ok (-1)) (fun _ => .ok (["A"], [1])) pFull 6 30 10 _
    rfl rfl rfl rfl

/-- C10 witness: concrete profiles missing each temporal key. -/
theorem missing_temporal_key_aborts_witness :
    predict_future_twin (fun _ => .ok 123456) (fun _ => .ok (["A"], [1]))
      { pFull with age := none } 6 = .error (.keyError "age") ∧
    predict_future_twin (fun _ => .ok 123456) (fun _ => .ok (["A"], [1]))
      { pFull with tenure_months := none } 6 = .error (.keyError "tenure_months") :=
  ⟨(missing_temporal_key_aborts _ _ { pFull with age := none } 6).1 rfl,
   (missing_temporal_key_aborts _ _ { pFull with tenure_months := none } 6).2 30 rfl rfl⟩

end Foresight
